import Mathlib

/-!
Verification development for the hotel-management web application
(`asst` package): role-gated authorization decorator (`src/asst/auth.py`)
and the stateful feedback/review workflow (`src/asst/views/feedback.py`).

The embedding is shallow: request handlers become pure functions over an
explicit database / global-state record; Python exceptions that a handler
catches become ordinary control flow, and an exception that escapes a
handler becomes an `Except.error` result.  The ORM model modules
(`asst.models.res`, `room`, `includes`, `review` and the three
review-link modules) and the `asst.models` package initializer are not
part of the provided sources; the rows and `create_*` operations they
define are modelled from the spec (sections 3 and 4.3) and are marked
`Modelled from the spec:` below.
-/

namespace Asst

/-- A JSON scalar as it arrives in a request payload: the handlers compare
such values against Python int literals (`RevType == 1`), where a string
value never equals an int, exactly as `JVal.jstr s = JVal.jnum n` is never
true here. -/
inductive JVal where
  | jnum (n : Int)
  | jstr (s : String)
  deriving DecidableEq, Repr

/-- The user record, fields from `src/asst/models/user.py` (class `User`):
email, password hash, name, address, phone number, role tag.
The `asst.models` package initializer that re-exports the class is not in
the provided sources; `auth.py` spells the email column `Email`, which we
identify with this `email` field (spec section 3: "User: identity = email"). -/
structure User where
  email : String
  password : String
  name : String
  address : String
  phone_no : String
  role : String
  deriving DecidableEq, Repr

/-- The `role` argument of `require_role`: a single role name or a list of
role names (`auth.py`, docstring of `require_role`). -/
inductive RoleSpec where
  | one (r : String)
  | many (rs : List String)
  deriving DecidableEq, Repr

/-- Outcome of a wrapped view: either the wrapped handler ran and produced
a value, or `login_manager.unauthorized()` was returned instead
(`unauth` in `auth.py` renders `unauthorized.html` with status 401). -/
inductive HResp (α : Type) where
  | handled (a : α)
  | unauthorized
  deriving DecidableEq, Repr

/-- The permitted role set of a `require_role` restriction: a single role
string permits exactly itself, a list permits its members. -/
def permittedRoles : RoleSpec → List String
  | .one r => [r]
  | .many rs => rs

/-- `require_role(role, **kwargss)` from `src/asst/auth.py` (lines 54-94),
applied to a handler `func` of positional arguments and keyword arguments.
`current_user = none` models an unauthenticated session, in which case
`@flask_login.login_required` already diverts to the unauthorized handler.
Otherwise, with `getrole` set, `args = tuple([user.role])` replaces the
positional arguments; then `isinstance(role, list) and user.role in role`
invokes the handler, `elif user.role == role` invokes it (for a list
restriction this comparison of a string with a list is always false), and
the remaining case returns `login_manager.unauthorized()`. -/
def require_role {α : Type} (role : RoleSpec) (getrole : Bool)
    (func : List String → List (String × String) → α)
    (current_user : Option User)
    (args : List String) (kwargs : List (String × String)) : HResp α :=
  match current_user with
  | none => HResp.unauthorized
  | some user =>
    let args := if getrole then [user.role] else args
    match role with
    | RoleSpec.many rs =>
      if user.role ∈ rs then HResp.handled (func args kwargs)
      else HResp.unauthorized
    | RoleSpec.one r =>
      if user.role = r then HResp.handled (func args kwargs)
      else HResp.unauthorized

/-- What the `login` view returns: a redirect to the index page, or the
rendered `login.html` template together with its HTTP status (the bare
`render_template` returns carry status 200, the final fall-through return
in `login` carries 401). -/
inductive LoginView where
  | redirectIndex
  | loginPage (status : Nat)
  deriving DecidableEq, Repr

/-- Authentication state: the user table and the flask-login session
identity (`user.get_id()` of the logged-in user, `none` when logged out). -/
structure AuthState where
  users : List User
  session : Option String
  deriving DecidableEq, Repr

inductive HttpMethod where
  | GET
  | POST
  deriving DecidableEq, Repr

/-- The login form fields `email` and `pw`. -/
structure LoginForm where
  email : String
  pw : String
  deriving DecidableEq, Repr

/-- `login` from `src/asst/auth.py` (lines 96-125).  `check_password_hash`
is werkzeug's hash verifier, an out-of-scope external primitive, passed in
as a parameter.  An authenticated session redirects to the index; a GET
renders the login page; a POST looks up `User.select().where(User.Email ==
email)` (modelled as an order-preserving filter, `users[0]` the first
match).  No matching user flashes and renders the login page (no 401 on
that return).  A hash match sets `user.id = user.Email`, logs the user in
(session identity becomes the email) and redirects; otherwise the
fall-through return renders the login page with status 401. -/
def login (check_password_hash : String → String → Bool)
    (st : AuthState) (method : HttpMethod) (form : LoginForm) :
    LoginView × AuthState :=
  if st.session.isSome then (LoginView.redirectIndex, st)
  else
    match method with
    | HttpMethod.GET => (LoginView.loginPage 200, st)
    | HttpMethod.POST =>
      match st.users.filter (fun u => decide (u.email = form.email)) with
      | [] => (LoginView.loginPage 200, st)
      | u :: _ =>
        if check_password_hash u.password form.pw then
          (LoginView.redirectIndex, { st with session := some u.email })
        else
          (LoginView.loginPage 401, st)

/-! ## Feedback workflow data model

Modelled from the spec: the ORM modules `asst.models.res`, `room`,
`includes`, `review`, `roomreview_evaluates`, `breakfastreview_asseses`
and `servicereview_rates` are not among the provided sources; row shapes
follow spec section 3 and the fields the handlers in
`src/asst/views/feedback.py` read, and `create_review` /
`create_{rm,brk,serv}review` follow the contract of spec section 4.3
(insert one row; the Review id is assigned on insert). -/

/-- Modelled from the spec: a `res.Reservation` row — identity the invoice
number; customer id, room number, hotel id, check-in/out dates, total
amount (spec section 3). -/
structure Reservation where
  CID : Nat
  InvoiceNo : String
  Room_no : String
  HotelID : String
  InDate : String
  OutDate : String
  TotalAmt : String
  deriving DecidableEq, Repr

/-- Modelled from the spec: a `room.Room` row with the fields the feedback
handlers read (`HotelID`, `Room_no`, `Type`; the `Type` column is named
`type` here because `Type` is reserved in Lean). -/
structure Room where
  Room_no : String
  HotelID : String
  type : String
  deriving DecidableEq, Repr

/-- Modelled from the spec: an `includes.Inc_Breakfast` line item
(`InvoiceNo`, `BType`, `HotelID`). -/
structure IncBreakfast where
  InvoiceNo : String
  BType : String
  HotelID : String
  deriving DecidableEq, Repr

/-- Modelled from the spec: an `includes.Cont_Service` line item
(`InvoiceNo`, `sType`, `HotelID`). -/
structure ContService where
  InvoiceNo : String
  sType : String
  HotelID : String
  deriving DecidableEq, Repr

/-- Modelled from the spec: a `review.writes_Review` row — review id
assigned on insert; rating, free-text comment, customer id, invoice
number (spec section 3).  The rating is stored exactly as it arrived in
the JSON payload, hence a `JVal`. -/
structure Review where
  ReviewID : Nat
  Rating : JVal
  TextComment : String
  CID : Nat
  InvoiceNo : String
  deriving DecidableEq, Repr

/-- Modelled from the spec: the room Review-Target Link row created by
`create_rmreview(ReviewIDtest, rno, hid)` — the second argument at the
call site is the global room number `rno`. -/
structure RoomReview where
  ReviewID : Nat
  Room_no : String
  HotelID : String
  deriving DecidableEq, Repr

/-- Modelled from the spec: the breakfast Review-Target Link row created by
`create_brkreview(ReviewIDtest, bftype, hid)`.  The stored type is the
global `bftype`, which is unset (`none`) until the rating route runs. -/
structure BreakfastReview where
  ReviewID : Nat
  BType : Option String
  HotelID : String
  deriving DecidableEq, Repr

/-- Modelled from the spec: the service Review-Target Link row created by
`create_servreview(ReviewIDtest, stype, hid)`. -/
structure ServiceReview where
  ReviewID : Nat
  sType : Option String
  HotelID : String
  deriving DecidableEq, Repr

/-- The relational store the feedback handlers query and insert into,
together with the next Review id the ORM will assign on insert.
`select()` results are modelled as order-preserving filters over these
lists, and inserts as appends, so a later insert lands later in every
subsequent select. -/
structure DB where
  reservations : List Reservation
  rooms : List Room
  breakfasts : List IncBreakfast
  services : List ContService
  reviews : List Review
  roomReviews : List RoomReview
  breakfastReviews : List BreakfastReview
  serviceReviews : List ServiceReview
  nextReviewID : Nat
  deriving DecidableEq, Repr

/-- The rating-route globals: the value assigned to `ReviewType` and the
three sub-type strings `rtype`/`bftype`/`stype`.  In
`get_rating_and_global` these four are assigned by the single
uninterruptible block of plain assignments at `feedback.py` lines
134-137 (all reads that could raise happen before it), so no program
state has one of them assigned without the others; they are therefore
modelled as one group, optional as a whole. -/
structure RatingGlobals where
  ReviewType : JVal
  rtype : String
  bftype : String
  stype : String
  deriving DecidableEq, Repr

/-- The process-wide mutable globals of `src/asst/views/feedback.py`
(module scope, lines 17-28, plus the globals first created by
`get_rating_and_global`).  `ratingGlobals = none` models the state
before any successful rating POST: the `rtype`/`bftype`/`stype` globals
do not exist yet (reading one raises `NameError`) and the module global
`ReviewType` still holds its sentinel string `'-1'`.  `rate` is likewise
first created by that handler but never read elsewhere.  The unused
module globals `choice`, `servtype`, `breakftype`, `rootype` (shadowed
by the handler-created names) are omitted. -/
structure GState where
  inv_no : String
  rrate : JVal
  bfrate : JVal
  srate : JVal
  ratingGlobals : Option RatingGlobals
  rate : Option JVal
  rno : String
  hid : String
  ReviewIDtest : Nat
  deriving DecidableEq, Repr

/-- Reading the `ReviewType` global: the module-scope sentinel `'-1'`
until the rating route stores a value, that value afterwards. -/
def GState.ReviewType (gs : GState) : JVal :=
  match gs.ratingGlobals with
  | none => JVal.jstr "-1"
  | some rg => rg.ReviewType

/-- Reading the handler-created `rtype` global: `none` while it does not
exist (a guarded read then behaves as the `NameError` caught by the
surrounding `except`; an unguarded read propagates, see `rreview`). -/
def GState.rtype (gs : GState) : Option String :=
  match gs.ratingGlobals with
  | none => none
  | some rg => some rg.rtype

/-- Reading the handler-created `bftype` global (as for `rtype`). -/
def GState.bftype (gs : GState) : Option String :=
  match gs.ratingGlobals with
  | none => none
  | some rg => some rg.bftype

/-- Reading the handler-created `stype` global (as for `rtype`). -/
def GState.stype (gs : GState) : Option String :=
  match gs.ratingGlobals with
  | none => none
  | some rg => some rg.stype

/-- The module-scope initial values of the shared workflow state
(`feedback.py` lines 17-28): `inv_no='1'`, the three ratings and
`ReviewType` hold the string sentinel `'-1'`, the rating-route globals
are not yet created, `rno='1'`, `hid='0'`, `ReviewIDtest='0'` (a review
id, modelled as 0). -/
def initGState : GState :=
  { inv_no := "1"
    rrate := JVal.jstr "-1"
    bfrate := JVal.jstr "-1"
    srate := JVal.jstr "-1"
    ratingGlobals := none
    rate := none
    rno := "1"
    hid := "0"
    ReviewIDtest := 0 }

/-! ## The rating route -/

/-- The JSON payload of a POST to `/feedback/rating`; a `none` field
models a missing key, whose subscript raises `KeyError` in the handler. -/
structure RatingPayload where
  radioValue : Option JVal
  ReviewType : Option JVal
  rootype : Option String
  breakftype : Option String
  servtype : Option String
  deriving DecidableEq, Repr

/-- Response of the rating route: `json.dumps(hold)` echoing
`[[RevType]]` with status 200, or the `("Error", 500)` pair produced by
the handler's catch-all `except`. -/
inductive RatingResp where
  | jsonEcho (v : JVal)
  | error500
  deriving DecidableEq, Repr

/-- `get_rating_and_global` from `src/asst/views/feedback.py`
(lines 108-142).  Reads `radioValue` into the global `rate`, then
dispatches on `ReviewType`: `1` stores the rate as the room rating, `2`
as the breakfast rating, `3` as the service rating, anything else stores
no per-category rating.  It then reads the three sub-type strings,
stores them with the review type into the shared state, and returns the
JSON echo.  A missing key raises `KeyError`, caught by the handler's
`except`, which returns `("Error", 500)` — globals already assigned
before the raise stay assigned, hence the sequential structure. -/
def get_rating_and_global (gs : GState) (p : RatingPayload) :
    RatingResp × GState :=
  match p.radioValue with
  | none => (RatingResp.error500, gs)
  | some rate =>
    let gs := { gs with rate := some rate }
    match p.ReviewType with
    | none => (RatingResp.error500, gs)
    | some RevType =>
      let gs :=
        if RevType = JVal.jnum 1 then { gs with rrate := rate }
        else if RevType = JVal.jnum 2 then { gs with bfrate := rate }
        else if RevType = JVal.jnum 3 then { gs with srate := rate }
        else gs
      match p.rootype, p.breakftype, p.servtype with
      | some roomtype, some breaktype, some servt =>
        (RatingResp.jsonEcho RevType,
          { gs with
            ratingGlobals := some
              { ReviewType := RevType
                rtype := roomtype
                bftype := breaktype
                stype := servt } })
      | _, _, _ => (RatingResp.error500, gs)

/-! ## The success route (`rreview`) -/

/-- Form data of the success submission: the optional
`description`/`description2`/`description3` fields (a `none` field makes
the corresponding `request.form[...]` subscript raise `KeyError`). -/
structure FeedbackForm where
  description : Option String
  description2 : Option String
  description3 : Option String
  deriving DecidableEq, Repr

/-- Exception injection for the data-access operations `rreview`
performs, in source order: the reservation select, the per-category line
item select inside the first `try`, then — past the `try` blocks — the
`create_review` insert, the re-query select and the link insert.  A set
flag means that operation raises when executed. -/
structure DBFail where
  selectRes : Bool
  selectRoom : Bool
  selectBf : Bool
  selectServ : Bool
  createReview : Bool
  selectReview : Bool
  createLink : Bool
  deriving DecidableEq, Repr

/-- All data-access operations succeed. -/
def noFail : DBFail :=
  { selectRes := false
    selectRoom := false
    selectBf := false
    selectServ := false
    createReview := false
    selectReview := false
    createLink := false }

/-- Response of the success route: the rendered success template, or the
feedback index re-rendered after `flash(msg, 'danger')`. -/
inductive RResp where
  | success
  | flashIndex (msg : String)
  deriving DecidableEq, Repr

/-- The flash text of the caught-exception paths in `rreview`. -/
def procErr : String := "There was an error processing your request. Please try again"

/-- The flash text of the failed-verification path in `rreview`. -/
def notOrderedErr : String := "error, please review only for things that were actually ordered."

/-- `res.Reservation.select().where(CID == cid, InvoiceNo == inv)`:
the session user's reservation rows for the selected invoice. -/
def resMatches (db : DB) (cid : Nat) (inv : String) : List Reservation :=
  db.reservations.filter (fun q => decide (q.CID = cid ∧ q.InvoiceNo = inv))

/-- `room.Room.select().where(HotelID == q.HotelID, Room_no == q.Room_no)`. -/
def roomsFor (db : DB) (q : Reservation) : List Room :=
  db.rooms.filter (fun rm => decide (rm.HotelID = q.HotelID ∧ rm.Room_no = q.Room_no))

/-- The room line items whose `Type` equals the stored sub-type `rtype`,
reached through the user's reservation rows for the selected invoice
(`rreview`, ReviewType 1 verification loops). -/
def roomTypeMatches (db : DB) (cid : Nat) (gs : GState) : List Room :=
  (resMatches db cid gs.inv_no).flatMap
    (fun q => (roomsFor db q).filter (fun rm => decide (gs.rtype = some rm.type)))

/-- The breakfast line items of the invoice whose `BType` equals the
stored sub-type `bftype`; the select is repeated once per matching
reservation row (`rreview`, ReviewType 2 verification loops). -/
def bfTypeMatches (db : DB) (cid : Nat) (gs : GState) : List IncBreakfast :=
  (resMatches db cid gs.inv_no).flatMap
    (fun _ =>
      (db.breakfasts.filter (fun f => decide (f.InvoiceNo = gs.inv_no))).filter
        (fun f => decide (gs.bftype = some f.BType)))

/-- The service line items of the invoice whose `sType` equals the
stored sub-type `stype`; the select is repeated once per matching
reservation row (`rreview`, ReviewType 3 verification loops). -/
def servTypeMatches (db : DB) (cid : Nat) (gs : GState) : List ContService :=
  (resMatches db cid gs.inv_no).flatMap
    (fun _ =>
      (db.services.filter (fun s => decide (s.InvoiceNo = gs.inv_no))).filter
        (fun s => decide (gs.stype = some s.sType)))

/-- Which review-link table a created link lands in. -/
inductive Cat where
  | room
  | breakfast
  | service
  deriving DecidableEq, Repr

/-- The persistence section of `rreview` (`feedback.py` lines 257-281),
executed when `SCounter > 0`.  This code sits inside `if SCounter == 0:`
but after — outside — the `try` block, so a raising operation here
propagates out of the handler (`Except.error`, carrying the state at the
raise point).  It runs `create_review(rateVal, Text, cid, inv_no)`
(insert one Review, id assigned on insert), re-queries
`writes_Review.select().where(Rating == rateVal, TextComment == Text,
InvoiceNo == inv_no)` overwriting `ReviewIDtest` on every iteration (the
last match wins), then inserts the category's link row:
`create_rmreview(ReviewIDtest, rno, hid)`,
`create_brkreview(ReviewIDtest, bftype, hid)` or
`create_servreview(ReviewIDtest, stype, hid)`. -/
def persistPhase (fl : DBFail) (cid : Nat) (cat : Cat) (rateVal : JVal)
    (Text : String) (gs : GState) (db : DB) :
    Except (GState × DB) (RResp × GState × DB) :=
  if fl.createReview then Except.error (gs, db)
  else
    let newRvw : Review :=
      { ReviewID := db.nextReviewID
        Rating := rateVal
        TextComment := Text
        CID := cid
        InvoiceNo := gs.inv_no }
    let db := { db with
      reviews := db.reviews ++ [newRvw]
      nextReviewID := db.nextReviewID + 1 }
    if fl.selectReview then Except.error (gs, db)
    else
      let tests := db.reviews.filter
        (fun t => decide (t.Rating = rateVal ∧ t.TextComment = Text ∧ t.InvoiceNo = gs.inv_no))
      let gs :=
        match tests.getLast? with
        | some t => { gs with ReviewIDtest := t.ReviewID }
        | none => gs
      if fl.createLink then Except.error (gs, db)
      else
        let db :=
          match cat with
          | Cat.room =>
            { db with roomReviews :=
                db.roomReviews ++ [{ ReviewID := gs.ReviewIDtest, Room_no := gs.rno, HotelID := gs.hid }] }
          | Cat.breakfast =>
            { db with breakfastReviews :=
                db.breakfastReviews ++ [{ ReviewID := gs.ReviewIDtest, BType := gs.bftype, HotelID := gs.hid }] }
          | Cat.service =>
            { db with serviceReviews :=
                db.serviceReviews ++ [{ ReviewID := gs.ReviewIDtest, sType := gs.stype, HotelID := gs.hid }] }
        Except.ok (RResp.success, gs, db)

/-- `rreview` from `src/asst/views/feedback.py` (lines 172-285), the
GET/POST handler of `/feedback/success`.  `SCounter` starts at 0 so the
`if SCounter == 0:` guard is always taken.  Inside the outer `try`, the
branch for the active `ReviewType` walks the user's reservation rows for
the selected invoice and, per row, the category's line items; each line
item whose type equals the stored sub-type reads the category's
description form field into `Text` (a missing field raises `KeyError`,
caught by the innermost `except: continue`, so nothing is counted) and
increments `SCounter`.  A raising select is caught (outer or
middle `except`) and flashes the processing error.  After the `try`,
`SCounter > 0` runs the persistence section (`persistPhase`, whose
raising operations propagate out of the handler), otherwise the
not-ordered error is flashed.  `cid` is `flask_login.current_user.CID`,
the session user's customer id (a column of the unprovided full user
model; spec section 3: a Reservation is owned by its customer id).

Before all of that, line 190 executes `print(str(rtype))` outside every
`try`: on a request made before the rating route has ever stored its
globals the `rtype` global does not exist, and the resulting `NameError`
propagates out of the handler (`Except.error` with the state
unchanged). -/
def rreview (fl : DBFail) (cid : Nat) (form : FeedbackForm)
    (gs : GState) (db : DB) : Except (GState × DB) (RResp × GState × DB) :=
  if gs.ratingGlobals = none then Except.error (gs, db)
  else if gs.ReviewType = JVal.jnum 1 then
    if fl.selectRes then Except.ok (RResp.flashIndex procErr, gs, db)
    else if fl.selectRoom ∧ resMatches db cid gs.inv_no ≠ [] then
      Except.ok (RResp.flashIndex procErr, gs, db)
    else
      if (match form.description with
          | some _ => (roomTypeMatches db cid gs).length
          | none => 0) > 0 then
        persistPhase fl cid Cat.room gs.rrate
          (match form.description with
           | some t => if (roomTypeMatches db cid gs).isEmpty then "hi" else t
           | none => "hi") gs db
      else Except.ok (RResp.flashIndex notOrderedErr, gs, db)
  else if gs.ReviewType = JVal.jnum 2 then
    if fl.selectRes then Except.ok (RResp.flashIndex procErr, gs, db)
    else if fl.selectBf ∧ resMatches db cid gs.inv_no ≠ [] then
      Except.ok (RResp.flashIndex procErr, gs, db)
    else
      if (match form.description2 with
          | some _ => (bfTypeMatches db cid gs).length
          | none => 0) > 0 then
        persistPhase fl cid Cat.breakfast gs.bfrate
          (match form.description2 with
           | some t => if (bfTypeMatches db cid gs).isEmpty then "hi" else t
           | none => "hi") gs db
      else Except.ok (RResp.flashIndex notOrderedErr, gs, db)
  else if gs.ReviewType = JVal.jnum 3 then
    if fl.selectRes then Except.ok (RResp.flashIndex procErr, gs, db)
    else if fl.selectServ ∧ resMatches db cid gs.inv_no ≠ [] then
      Except.ok (RResp.flashIndex procErr, gs, db)
    else
      if (match form.description3 with
          | some _ => (servTypeMatches db cid gs).length
          | none => 0) > 0 then
        persistPhase fl cid Cat.service gs.srate
          (match form.description3 with
           | some t => if (servTypeMatches db cid gs).isEmpty then "hi" else t
           | none => "hi") gs db
      else Except.ok (RResp.flashIndex notOrderedErr, gs, db)
  else
    Except.ok (RResp.flashIndex notOrderedErr, gs, db)

/-- The database state an `rreview` outcome leaves behind, for the caught
(`ok`) and for the escaped-exception (`error`) case alike. -/
def outDB : Except (GState × DB) (RResp × GState × DB) → DB
  | Except.ok (_, _, db) => db
  | Except.error (_, db) => db

/-- The per-category rating global `rreview` persists: `rrate` for
review type 1, `bfrate` for 2, `srate` for 3. -/
def activeRate (gs : GState) : JVal :=
  if gs.ReviewType = JVal.jnum 1 then gs.rrate
  else if gs.ReviewType = JVal.jnum 2 then gs.bfrate
  else gs.srate

/-- The description form field the active review category reads. -/
def activeDescription (gs : GState) (form : FeedbackForm) : Option String :=
  if gs.ReviewType = JVal.jnum 1 then form.description
  else if gs.ReviewType = JVal.jnum 2 then form.description2
  else form.description3

/-- How many line items of the selected invoice (reached through the
session user's reservation rows) carry the active category's stored
sub-type — `rreview`'s `SCounter` when the description field is present. -/
def activeMatchCount (db : DB) (cid : Nat) (gs : GState) : Nat :=
  if gs.ReviewType = JVal.jnum 1 then (roomTypeMatches db cid gs).length
  else if gs.ReviewType = JVal.jnum 2 then (bfTypeMatches db cid gs).length
  else if gs.ReviewType = JVal.jnum 3 then (servTypeMatches db cid gs).length
  else 0

/-- The database a successful submission is expected to leave: exactly one
new Review row (id `db.nextReviewID`, the active category's rating, the
submitted comment `t`, the session user and the selected invoice) and
exactly one new link row in the active category's table, referencing that
same id. -/
def linkedDB (db : DB) (gs : GState) (cid : Nat) (t : String) : DB :=
  let newRvw : Review :=
    { ReviewID := db.nextReviewID
      Rating := activeRate gs
      TextComment := t
      CID := cid
      InvoiceNo := gs.inv_no }
  let db' := { db with
    reviews := db.reviews ++ [newRvw]
    nextReviewID := db.nextReviewID + 1 }
  if gs.ReviewType = JVal.jnum 1 then
    { db' with roomReviews :=
        db.roomReviews ++ [{ ReviewID := db.nextReviewID, Room_no := gs.rno, HotelID := gs.hid }] }
  else if gs.ReviewType = JVal.jnum 2 then
    { db' with breakfastReviews :=
        db.breakfastReviews ++ [{ ReviewID := db.nextReviewID, BType := gs.bftype, HotelID := gs.hid }] }
  else
    { db' with serviceReviews :=
        db.serviceReviews ++ [{ ReviewID := db.nextReviewID, sType := gs.stype, HotelID := gs.hid }] }

/-! ## Concrete scenario (spec section 8)

Invoice "1" has one breakfast line item of type "continental"; the client
posted ReviewType=2, breakftype="continental", rating 4, and submits
description2="great food".  Used as the concrete input of the witnesses. -/

/-- A customer (session user with customer id 7 in the scenario). -/
def scenarioUser : User :=
  { email := "cust@example.com"
    password := "pbkdf2-hash"
    name := "Cust Omer"
    address := "1 Way"
    phone_no := "555"
    role := "guest" }

/-- A user carrying the `admin` role tag. -/
def adminUser : User :=
  { email := "admin@example.com"
    password := "pbkdf2-hash2"
    name := "Ad Min"
    address := "2 Way"
    phone_no := "556"
    role := "admin" }

/-- Scenario database: customer 7 holds reservation (invoice "1", room
"101", hotel "H1") with one continental breakfast line item; no reviews
yet, next review id 5. -/
def scenarioDB : DB :=
  { reservations :=
      [{ CID := 7, InvoiceNo := "1", Room_no := "101", HotelID := "H1",
         InDate := "2016-04-01", OutDate := "2016-04-03", TotalAmt := "200" }]
    rooms := [{ Room_no := "101", HotelID := "H1", type := "suite" }]
    breakfasts := [{ InvoiceNo := "1", BType := "continental", HotelID := "H1" }]
    services := []
    reviews := []
    roomReviews := []
    breakfastReviews := []
    serviceReviews := []
    nextReviewID := 5 }

/-- Scenario shared state after `pick_res` (invoice "1", room "101",
hotel "H1") and a rating post of 4 for review type 2 with breakfast
sub-type "continental". -/
def scenarioGS : GState :=
  { initGState with
    inv_no := "1"
    bfrate := JVal.jnum 4
    ratingGlobals := some
      { ReviewType := JVal.jnum 2
        rtype := "suite"
        bftype := "continental"
        stype := "laundry" }
    rate := some (JVal.jnum 4)
    rno := "101"
    hid := "H1" }

/-- Scenario submission form: `description2 = "great food"`. -/
def scenarioForm : FeedbackForm :=
  { description := none, description2 := some "great food", description3 := none }

/-! ## Claims about the authorization gate -/

/-- C1: for every request to a route wrapped by `require_role` with a
permitted-role set, if the session user is authenticated but the user's
role tag is not in the permitted set — whether the restriction is a
single role string or a list — the wrapped handler is not invoked (the
result is `unauthorized` for every possible handler `func`) and the
unauthorized response is returned instead. -/
theorem require_role_denies_unpermitted_role {α : Type} (role : RoleSpec)
    (getrole : Bool) (func : List String → List (String × String) → α)
    (u : User) (args : List String) (kwargs : List (String × String))
    (h : u.role ∉ permittedRoles role) :
    require_role role getrole func (some u) args kwargs = HResp.unauthorized := by
  cases role with
  | one r =>
    simp only [permittedRoles, List.mem_singleton] at h
    simp [require_role, h]
  | many rs =>
    simp only [permittedRoles] at h
    simp [require_role, h]

/-- Witness for C1: the scenario user's role tag "guest" is not among
the permitted roles of the feedback routes, so the wrapped handler is
bypassed. -/
theorem require_role_denies_unpermitted_role_witness :
    scenarioUser.role ∉ permittedRoles (RoleSpec.many ["admin", "manager", "customer"]) ∧
    require_role (RoleSpec.many ["admin", "manager", "customer"]) true
        (fun a _ => a) (some scenarioUser) ["x"] [] = HResp.unauthorized :=
  ⟨by decide,
    require_role_denies_unpermitted_role _ _ _ _ _ _ (by decide)⟩

/-- C9 counterexample: with the role-injection flag set and access
granted, the wrapper invokes the handler with `args = tuple([user.role])`
— the request's other positional argument "x" is discarded, not kept
after the role: the recording handler receives exactly `["admin"]`,
which differs from the `["admin", "x"]` the claim predicts. -/
theorem require_role_getrole_drops_positional_args_cex :
    require_role (RoleSpec.many ["admin"]) true (fun a _ => a)
        (some adminUser) ["x"] [] = HResp.handled ["admin"] ∧
      (HResp.handled ["admin"] : HResp (List String)) ≠ HResp.handled ["admin", "x"] :=
  ⟨by decide, by decide⟩

/-- C9 (amended): for every handler wrapped with the role-injection flag
set, when access is granted the wrapped handler is invoked with the
session user's role string as its only positional argument — any other
positional arguments are discarded — while keyword arguments pass
through unchanged. -/
theorem require_role_getrole_injects_role_only {α : Type} (role : RoleSpec)
    (func : List String → List (String × String) → α)
    (u : User) (args : List String) (kwargs : List (String × String))
    (h : u.role ∈ permittedRoles role) :
    require_role role true func (some u) args kwargs =
      HResp.handled (func [u.role] kwargs) := by
  cases role with
  | one r =>
    simp only [permittedRoles, List.mem_singleton] at h
    simp [require_role, h]
  | many rs =>
    simp only [permittedRoles] at h
    simp [require_role, h]

/-- Witness for amended C9: the admin user reaches a recording handler
with `["admin"]` as the positional arguments and the keyword arguments
intact. -/
theorem require_role_getrole_injects_role_only_witness :
    adminUser.role ∈ permittedRoles (RoleSpec.many ["admin", "manager"]) ∧
    require_role (RoleSpec.many ["admin", "manager"]) true
        (fun a k => (a, k)) (some adminUser) ["x", "y"] [("q", "1")] =
      HResp.handled (["admin"], [("q", "1")]) :=
  ⟨by decide,
    require_role_getrole_injects_role_only _ _ _ _ _ (by decide)⟩

/-! ## Claims about login -/

/-- C6: for every login POST where the stored password hash of the user
found for the submitted email does not verify against the submitted
password, the handler returns the login page with status 401 and the
state — in particular the absent session — is unchanged: no session is
created. -/
theorem login_wrong_password_401_no_session
    (check_password_hash : String → String → Bool) (st : AuthState)
    (form : LoginForm) (u : User) (rest : List User)
    (hsess : st.session = none)
    (hfind : st.users.filter (fun v => decide (v.email = form.email)) = u :: rest)
    (hpw : check_password_hash u.password form.pw = false) :
    login check_password_hash st HttpMethod.POST form = (LoginView.loginPage 401, st) := by
  unfold login
  rw [hsess]
  simp only [Option.isSome_none, Bool.false_eq_true, if_false, hfind, hpw]

/-- Witness for C6: a wrong password against the scenario user's record
yields the 401 login page and leaves the session empty. -/
theorem login_wrong_password_401_no_session_witness :
    ({ users := [scenarioUser], session := none } : AuthState).session = none ∧
    ({ users := [scenarioUser], session := none } : AuthState).users.filter
        (fun v => decide (v.email = "cust@example.com")) = scenarioUser :: [] ∧
    login (fun _ _ => false) { users := [scenarioUser], session := none }
        HttpMethod.POST { email := "cust@example.com", pw := "wrong" } =
      (LoginView.loginPage 401, { users := [scenarioUser], session := none }) :=
  ⟨rfl, by decide,
    login_wrong_password_401_no_session _ _ _ scenarioUser [] rfl (by decide) rfl⟩

/-- C7: for every login POST where a user exists for the submitted email
and the stored hash verifies against the submitted password, the handler
logs the user in and the created session's identity equals the submitted
email address. -/
theorem login_success_session_is_submitted_email
    (check_password_hash : String → String → Bool) (st : AuthState)
    (form : LoginForm) (u : User) (rest : List User)
    (hsess : st.session = none)
    (hfind : st.users.filter (fun v => decide (v.email = form.email)) = u :: rest)
    (hpw : check_password_hash u.password form.pw = true) :
    login check_password_hash st HttpMethod.POST form =
      (LoginView.redirectIndex, { st with session := some form.email }) := by
  have hmem : u ∈ st.users.filter (fun v => decide (v.email = form.email)) := by
    rw [hfind]; exact List.mem_cons_self u rest
  have hemail : u.email = form.email := by
    have h := List.of_mem_filter hmem
    simpa using h
  unfold login
  rw [hsess]
  simp only [Option.isSome_none, Bool.false_eq_true, if_false, hfind, hpw, if_true,
    hemail]

/-- Witness for C7: logging in as the scenario user with a verifying
password makes the session identity the submitted email. -/
theorem login_success_session_is_submitted_email_witness :
    (fun (_ : String) (_ : String) => true) scenarioUser.password "pw" = true ∧
    login (fun _ _ => true) { users := [scenarioUser], session := none }
        HttpMethod.POST { email := "cust@example.com", pw := "pw" } =
      (LoginView.redirectIndex,
        { users := [scenarioUser], session := some "cust@example.com" }) :=
  ⟨rfl,
    login_success_session_is_submitted_email _ _ _ scenarioUser [] rfl (by decide) rfl⟩

/-! ## Claims about the rating route -/

/-- C8: for every POST to the rating route with all of `radioValue`,
`ReviewType`, `rootype`, `breakftype`, `servtype` present and
`ReviewType` equal to 1, 2 or 3, the handler succeeds with the JSON echo
and stores `radioValue` as the room rating for 1, the breakfast rating
for 2, the service rating for 3, and stores the three sub-type strings
and the review type into the shared workflow state. -/
theorem rating_stores_rating_and_subtypes (gs : GState) (v t : JVal)
    (r b s : String)
    (h : t = JVal.jnum 1 ∨ t = JVal.jnum 2 ∨ t = JVal.jnum 3) :
    (get_rating_and_global gs
        { radioValue := some v, ReviewType := some t, rootype := some r,
          breakftype := some b, servtype := some s }).1 = RatingResp.jsonEcho t ∧
    (get_rating_and_global gs
        { radioValue := some v, ReviewType := some t, rootype := some r,
          breakftype := some b, servtype := some s }).2 =
      { gs with
        rate := some v
        rrate := if t = JVal.jnum 1 then v else gs.rrate
        bfrate := if t = JVal.jnum 2 then v else gs.bfrate
        srate := if t = JVal.jnum 3 then v else gs.srate
        ratingGlobals := some
          { ReviewType := t, rtype := r, bftype := b, stype := s } } := by
  rcases h with h | h | h <;> subst h <;>
    simp [get_rating_and_global]

/-- Witness for C8: the scenario rating POST (rating 4 for review type 2,
breakfast sub-type "continental") stores the breakfast rating and the
sub-types. -/
theorem rating_stores_rating_and_subtypes_witness :
    (JVal.jnum 2 = JVal.jnum 1 ∨ JVal.jnum 2 = JVal.jnum 2 ∨ JVal.jnum 2 = JVal.jnum 3) ∧
    (get_rating_and_global initGState
        { radioValue := some (JVal.jnum 4), ReviewType := some (JVal.jnum 2),
          rootype := some "suite", breakftype := some "continental",
          servtype := some "laundry" }).2 =
      { initGState with
        rate := some (JVal.jnum 4)
        rrate := if JVal.jnum 2 = JVal.jnum 1 then JVal.jnum 4 else initGState.rrate
        bfrate := if JVal.jnum 2 = JVal.jnum 2 then JVal.jnum 4 else initGState.bfrate
        srate := if JVal.jnum 2 = JVal.jnum 3 then JVal.jnum 4 else initGState.srate
        ratingGlobals := some
          { ReviewType := JVal.jnum 2, rtype := "suite", bftype := "continental",
            stype := "laundry" } } :=
  ⟨Or.inr (Or.inl rfl),
    (rating_stores_rating_and_subtypes initGState (JVal.jnum 4) (JVal.jnum 2)
      "suite" "continental" "laundry" (Or.inr (Or.inl rfl))).2⟩

/-- C10: for every POST to the rating route whose `ReviewType` JSON value
is not the number 1, 2 or 3 (e.g. another number, or a string), the
handler still succeeds: it returns the 200 JSON echo of that value,
stores the sub-type strings and the unrecognized value as the active
review category, and stores no rating under any category — `rrate`,
`bfrate` and `srate` keep their previous values. -/
theorem rating_unknown_type_no_category_rating (gs : GState) (v t : JVal)
    (r b s : String)
    (h1 : t ≠ JVal.jnum 1) (h2 : t ≠ JVal.jnum 2) (h3 : t ≠ JVal.jnum 3) :
    get_rating_and_global gs
        { radioValue := some v, ReviewType := some t, rootype := some r,
          breakftype := some b, servtype := some s } =
      (RatingResp.jsonEcho t,
        { gs with
          rate := some v
          ratingGlobals := some
            { ReviewType := t, rtype := r, bftype := b, stype := s } }) := by
  simp [get_rating_and_global, h1, h2, h3]

/-- Witness for C10: posting the string "1" as `ReviewType` (which the
handler's int comparisons never match) echoes it back, stores it as the
review category and leaves all three category ratings untouched. -/
theorem rating_unknown_type_no_category_rating_witness :
    (JVal.jstr "1" ≠ JVal.jnum 1) ∧
    get_rating_and_global initGState
        { radioValue := some (JVal.jnum 4), ReviewType := some (JVal.jstr "1"),
          rootype := some "suite", breakftype := some "continental",
          servtype := some "laundry" } =
      (RatingResp.jsonEcho (JVal.jstr "1"),
        { initGState with
          rate := some (JVal.jnum 4)
          ratingGlobals := some
            { ReviewType := JVal.jstr "1", rtype := "suite",
              bftype := "continental", stype := "laundry" } }) :=
  ⟨by decide,
    rating_unknown_type_no_category_rating initGState (JVal.jnum 4) (JVal.jstr "1")
      "suite" "continental" "laundry" (by decide) (by decide) (by decide)⟩

/-! ## Claims about the success route -/

/-- With no failing data access, the persistence section inserts exactly
one Review row (id `db.nextReviewID`), recovers exactly that id through
the re-query (the new row is the last match of the select), stores it in
`ReviewIDtest` and appends exactly one link row carrying it to the active
category's table. -/
theorem persistPhase_noFail_run (cid : Nat) (cat : Cat) (rateVal : JVal)
    (t : String) (gs : GState) (db : DB) :
    persistPhase noFail cid cat rateVal t gs db =
      Except.ok (RResp.success, { gs with ReviewIDtest := db.nextReviewID },
        (let nr : Review :=
          { ReviewID := db.nextReviewID, Rating := rateVal, TextComment := t,
            CID := cid, InvoiceNo := gs.inv_no }
         let db' := { db with reviews := db.reviews ++ [nr], nextReviewID := db.nextReviewID + 1 }
         match cat with
         | Cat.room =>
           { db' with roomReviews :=
               db.roomReviews ++ [{ ReviewID := db.nextReviewID, Room_no := gs.rno, HotelID := gs.hid }] }
         | Cat.breakfast =>
           { db' with breakfastReviews :=
               db.breakfastReviews ++ [{ ReviewID := db.nextReviewID, BType := gs.bftype, HotelID := gs.hid }] }
         | Cat.service =>
           { db' with serviceReviews :=
               db.serviceReviews ++ [{ ReviewID := db.nextReviewID, sType := gs.stype, HotelID := gs.hid }] })) := by
  cases cat <;>
    simp [persistPhase, noFail, List.filter_append, List.getLast?_concat,
      GState.bftype, GState.stype]

/-- C2: for every submission via the success route whose active review
category is 1, 2 or 3, where the category's stored sub-type matches at
least one line item of the selected invoice belonging to the session
user and the matching description field is submitted, exactly one Review
row is created and exactly one link row of the active category is
created, referencing that Review's generated id (`linkedDB` appends one
Review with id `db.nextReviewID` and one link row carrying the same id). -/
theorem rreview_match_creates_one_review_and_link (cid : Nat)
    (form : FeedbackForm) (gs : GState) (db : DB) (t : String)
    (hRT : gs.ReviewType = JVal.jnum 1 ∨ gs.ReviewType = JVal.jnum 2 ∨
      gs.ReviewType = JVal.jnum 3)
    (hm : activeMatchCount db cid gs ≠ 0)
    (hd : activeDescription gs form = some t) :
    rreview noFail cid form gs db =
      Except.ok (RResp.success, { gs with ReviewIDtest := db.nextReviewID },
        linkedDB db gs cid t) := by
  have hrg : ¬ gs.ratingGlobals = none := by
    intro hrs
    rcases hRT with h | h | h <;> simp [GState.ReviewType, hrs] at h
  rcases hRT with h | h | h
  · simp [activeMatchCount, h] at hm
    simp [activeDescription, h] at hd
    have hpos : 0 < (roomTypeMatches db cid gs).length := List.length_pos.mpr hm
    have hie : (roomTypeMatches db cid gs).isEmpty = false := by
      cases hms : roomTypeMatches db cid gs with
      | nil => exact absurd hms hm
      | cons a l => rfl
    unfold rreview
    simp [h, hrg, noFail, hd, hie, hpos, linkedDB, activeRate]
    exact persistPhase_noFail_run cid Cat.room gs.rrate t gs db
  · simp [activeMatchCount, h] at hm
    simp [activeDescription, h] at hd
    have hpos : 0 < (bfTypeMatches db cid gs).length := List.length_pos.mpr hm
    have hie : (bfTypeMatches db cid gs).isEmpty = false := by
      cases hms : bfTypeMatches db cid gs with
      | nil => exact absurd hms hm
      | cons a l => rfl
    unfold rreview
    simp [h, hrg, noFail, hd, hie, hpos, linkedDB, activeRate]
    exact persistPhase_noFail_run cid Cat.breakfast gs.bfrate t gs db
  · simp [activeMatchCount, h] at hm
    simp [activeDescription, h] at hd
    have hpos : 0 < (servTypeMatches db cid gs).length := List.length_pos.mpr hm
    have hie : (servTypeMatches db cid gs).isEmpty = false := by
      cases hms : servTypeMatches db cid gs with
      | nil => exact absurd hms hm
      | cons a l => rfl
    unfold rreview
    simp [h, hrg, noFail, hd, hie, hpos, linkedDB, activeRate]
    exact persistPhase_noFail_run cid Cat.service gs.srate t gs db

/-- Witness for C2 — the concrete scenario of spec section 8: the
continental breakfast is among invoice "1"'s line items, so the
submission creates one Review (rating 4, "great food", invoice "1") and
one breakfast link referencing its id 5. -/
theorem rreview_match_creates_one_review_and_link_witness :
    activeMatchCount scenarioDB 7 scenarioGS ≠ 0 ∧
    rreview noFail 7 scenarioForm scenarioGS scenarioDB =
      Except.ok (RResp.success, { scenarioGS with ReviewIDtest := 5 },
        linkedDB scenarioDB scenarioGS 7 "great food") :=
  ⟨by decide,
    rreview_match_creates_one_review_and_link 7 scenarioForm scenarioGS scenarioDB
      "great food" (Or.inr (Or.inl rfl)) (by decide) rfl⟩

/-- C3: for every submission via the success route whose active review
category is 1, 2 or 3, where the category's stored sub-type matches no
line item of the selected invoice belonging to the session user, the
handler flashes "error, please review only for things that were actually
ordered." and the shared state and the database are returned unchanged —
no Review row and no link row is created. -/
theorem rreview_no_match_flashes_and_preserves_state (cid : Nat)
    (form : FeedbackForm) (gs : GState) (db : DB)
    (hRT : gs.ReviewType = JVal.jnum 1 ∨ gs.ReviewType = JVal.jnum 2 ∨
      gs.ReviewType = JVal.jnum 3)
    (hm : activeMatchCount db cid gs = 0) :
    rreview noFail cid form gs db =
      Except.ok (RResp.flashIndex notOrderedErr, gs, db) := by
  have hrg : ¬ gs.ratingGlobals = none := by
    intro hrs
    rcases hRT with h | h | h <;> simp [GState.ReviewType, hrs] at h
  rcases hRT with h | h | h
  · simp [activeMatchCount, h] at hm
    unfold rreview
    cases hdesc : form.description <;> simp [h, hrg, noFail, hdesc, hm]
  · simp [activeMatchCount, h] at hm
    unfold rreview
    cases hdesc : form.description2 <;> simp [h, hrg, noFail, hdesc, hm]
  · simp [activeMatchCount, h] at hm
    unfold rreview
    cases hdesc : form.description3 <;> simp [h, hrg, noFail, hdesc, hm]

/-- The scenario state with the stored breakfast sub-type replaced by
"english", which invoice "1" does not include. -/
def scenarioGSeng : GState :=
  { scenarioGS with
    ratingGlobals := some
      { ReviewType := JVal.jnum 2, rtype := "suite", bftype := "english",
        stype := "laundry" } }

/-- Witness for C3: asking to review an "english" breakfast against the
scenario invoice (whose only breakfast line item is "continental")
flashes the not-ordered error and changes nothing. -/
theorem rreview_no_match_flashes_and_preserves_state_witness :
    activeMatchCount scenarioDB 7 scenarioGSeng = 0 ∧
    rreview noFail 7 scenarioForm scenarioGSeng scenarioDB =
      Except.ok (RResp.flashIndex notOrderedErr, scenarioGSeng, scenarioDB) :=
  ⟨by decide,
    rreview_no_match_flashes_and_preserves_state 7 scenarioForm
      scenarioGSeng scenarioDB (Or.inr (Or.inl rfl)) (by decide)⟩

/-- Every run of the success handler either crashes on the unguarded
`print(str(rtype))` read (only possible while the rating globals do not
exist), or terminates inside the `try` blocks with an unchanged state
and a flashed page, or reaches the persistence section with some
category, rating value and comment text. -/
theorem rreview_cases (fl : DBFail) (cid : Nat) (form : FeedbackForm)
    (gs : GState) (db : DB) :
    (gs.ratingGlobals = none ∧
      rreview fl cid form gs db = Except.error (gs, db)) ∨
    (∃ msg, rreview fl cid form gs db = Except.ok (RResp.flashIndex msg, gs, db)) ∨
    (∃ cat rateVal t, rreview fl cid form gs db =
        persistPhase fl cid cat rateVal t gs db) := by
  unfold rreview
  by_cases hrs : gs.ratingGlobals = none
  · rw [if_pos hrs]
    exact Or.inl ⟨hrs, rfl⟩
  · rw [if_neg hrs]
    split_ifs <;>
      first
        | exact Or.inr (Or.inl ⟨_, rfl⟩)
        | exact Or.inr (Or.inr ⟨_, _, _, rfl⟩)

/-- The persistence section only ever appends a link row whose review id
is the id of a row present in the resulting review table: the id is
recovered from the re-query over the table that already contains the
Review inserted first. -/
theorem persistPhase_links (fl : DBFail) (cid : Nat) (cat : Cat)
    (rateVal : JVal) (t : String) (gs : GState) (db : DB) :
    (∀ l ∈ (outDB (persistPhase fl cid cat rateVal t gs db)).roomReviews,
      l ∈ db.roomReviews ∨
        l.ReviewID ∈ (outDB (persistPhase fl cid cat rateVal t gs db)).reviews.map Review.ReviewID) ∧
    (∀ l ∈ (outDB (persistPhase fl cid cat rateVal t gs db)).breakfastReviews,
      l ∈ db.breakfastReviews ∨
        l.ReviewID ∈ (outDB (persistPhase fl cid cat rateVal t gs db)).reviews.map Review.ReviewID) ∧
    (∀ l ∈ (outDB (persistPhase fl cid cat rateVal t gs db)).serviceReviews,
      l ∈ db.serviceReviews ∨
        l.ReviewID ∈ (outDB (persistPhase fl cid cat rateVal t gs db)).reviews.map Review.ReviewID) := by
  unfold persistPhase
  by_cases h1 : fl.createReview
  · simp only [h1, if_true, outDB]
    exact ⟨fun l hl => Or.inl hl, fun l hl => Or.inl hl, fun l hl => Or.inl hl⟩
  · simp only [h1, Bool.false_eq_true, if_false]
    by_cases h2 : fl.selectReview
    · simp only [h2, if_true, outDB]
      exact ⟨fun l hl => Or.inl hl, fun l hl => Or.inl hl, fun l hl => Or.inl hl⟩
    · simp only [h2, Bool.false_eq_true, if_false]
      by_cases h3 : fl.createLink
      · simp only [h3, if_true, outDB]
        exact ⟨fun l hl => Or.inl hl, fun l hl => Or.inl hl, fun l hl => Or.inl hl⟩
      · simp only [h3, Bool.false_eq_true, if_false]
        -- the re-query result is nonempty: it contains the Review inserted first
        set nr : Review :=
          { ReviewID := db.nextReviewID, Rating := rateVal, TextComment := t,
            CID := cid, InvoiceNo := gs.inv_no } with hnr
        set tests :=
          (db.reviews ++ [nr]).filter
            (fun v => decide (v.Rating = rateVal ∧ v.TextComment = t ∧ v.InvoiceNo = gs.inv_no)) with htests
        have hmem : nr ∈ tests := by
          rw [htests]
          refine List.mem_filter.2 ⟨List.mem_append_right _ (List.mem_singleton.2 rfl), ?_⟩
          simp [hnr]
        have hlast : ∃ ts, tests.getLast? = some ts ∧ ts ∈ tests := by
          cases hg : tests.getLast? with
          | none =>
            rw [List.getLast?_eq_none_iff] at hg
            rw [hg] at hmem
            exact absurd hmem (List.not_mem_nil nr)
          | some ts => exact ⟨ts, rfl, List.mem_of_mem_getLast? hg⟩
        obtain ⟨ts, hg, hts⟩ := hlast
        have htsrev : ts ∈ db.reviews ++ [nr] := List.mem_of_mem_filter (htests ▸ hts)
        have hid : ts.ReviewID ∈ (db.reviews ++ [nr]).map Review.ReviewID :=
          List.mem_map_of_mem Review.ReviewID htsrev
        rw [hg]
        cases cat <;>
          simp only [outDB] <;>
          refine ⟨?_, ?_, ?_⟩ <;>
          intro l hl <;>
          first
            | exact Or.inl hl
            | (rcases List.mem_append.1 hl with hold | hnew
               · exact Or.inl hold
               · rw [List.mem_singleton.1 hnew]
                 exact Or.inr hid)

/-- C4: every Review-Target Link row created by the feedback workflow —
under any combination of succeeding and failing data accesses —
references the id of a Review row present in the resulting review table:
the workflow creates the Review first, re-queries to recover the
assigned id, and only then creates the link.  Link rows in the outcome
are either pre-existing or carry such a persisted id. -/
theorem rreview_link_references_persisted_review (fl : DBFail) (cid : Nat)
    (form : FeedbackForm) (gs : GState) (db : DB) :
    (∀ l ∈ (outDB (rreview fl cid form gs db)).roomReviews,
      l ∈ db.roomReviews ∨
        l.ReviewID ∈ (outDB (rreview fl cid form gs db)).reviews.map Review.ReviewID) ∧
    (∀ l ∈ (outDB (rreview fl cid form gs db)).breakfastReviews,
      l ∈ db.breakfastReviews ∨
        l.ReviewID ∈ (outDB (rreview fl cid form gs db)).reviews.map Review.ReviewID) ∧
    (∀ l ∈ (outDB (rreview fl cid form gs db)).serviceReviews,
      l ∈ db.serviceReviews ∨
        l.ReviewID ∈ (outDB (rreview fl cid form gs db)).reviews.map Review.ReviewID) := by
  rcases rreview_cases fl cid form gs db with ⟨_, hE⟩ | ⟨msg, hE⟩ | ⟨cat, rateVal, t, hE⟩
  · rw [hE]
    exact ⟨fun l hl => Or.inl hl, fun l hl => Or.inl hl, fun l hl => Or.inl hl⟩
  · rw [hE]
    exact ⟨fun l hl => Or.inl hl, fun l hl => Or.inl hl, fun l hl => Or.inl hl⟩
  · rw [hE]
    exact persistPhase_links fl cid cat rateVal t gs db

/-- Witness for C4: in the concrete scenario the created breakfast link
(id 5) references the id of the Review row the submission persisted. -/
theorem rreview_link_references_persisted_review_witness :
    ({ ReviewID := 5, BType := some "continental", HotelID := "H1" } : BreakfastReview) ∈
      (outDB (rreview noFail 7 scenarioForm scenarioGS scenarioDB)).breakfastReviews ∧
    (({ ReviewID := 5, BType := some "continental", HotelID := "H1" } : BreakfastReview) ∈
        scenarioDB.breakfastReviews ∨
      (5 : Nat) ∈ (outDB (rreview noFail 7 scenarioForm scenarioGS scenarioDB)).reviews.map
        Review.ReviewID) :=
  ⟨by decide,
    (rreview_link_references_persisted_review noFail 7 scenarioForm scenarioGS
      scenarioDB).2.1 _ (by decide)⟩

/-- C5 counterexample: the persistence section of the success handler
(`feedback.py` lines 257-281) sits inside `if SCounter == 0:` but after
the `try`/`except` block, so an exception raised by `create_review`
there is not caught at the handler boundary: in the concrete scenario —
a valid submission whose `create_review` insert raises — the handler's
outcome is `Except.error`, the exception propagating to the caller,
contradicting the claim that no exception ever propagates out of a
handler. -/
theorem rreview_persistence_exception_escapes_cex :
    rreview { noFail with createReview := true } 7 scenarioForm scenarioGS scenarioDB =
      Except.error (scenarioGS, scenarioDB) := by
  rfl

/-- C5 (amended): in the success handler, exceptions raised inside its
`try` blocks (the session/reservation access and the verification
selects) are caught at the handler boundary and converted to a flashed
message with a re-rendered page, and the rating handler converts every
exception to the bare "Error" 500 response; but two kinds of exception
propagate out of the success handler: any exception raised in its
persistence section (the Review insert, the id re-query and the link
insert, which execute outside every `try`), and the `NameError` from
the unguarded `print(str(rtype))` read on any request made before the
rating route has ever stored its globals.  Formally: once the rating
globals exist, the handler returns normally whenever the three
persistence operations do not raise, whatever else fails; while they do
not exist, every request crashes with the state unchanged. -/
theorem rreview_exception_escape_boundary (fl : DBFail)
    (cid : Nat) (form : FeedbackForm) (gs : GState) (db : DB) :
    (gs.ratingGlobals ≠ none → fl.createReview = false →
      fl.selectReview = false → fl.createLink = false →
      ∃ r gs' db', rreview fl cid form gs db = Except.ok (r, gs', db')) ∧
    (gs.ratingGlobals = none →
      rreview fl cid form gs db = Except.error (gs, db)) := by
  constructor
  · intro hrg hc hsr hcl
    rcases rreview_cases fl cid form gs db with ⟨hn, _⟩ | ⟨msg, hE⟩ | ⟨cat, rateVal, t, hE⟩
    · exact absurd hn hrg
    · exact ⟨_, _, _, hE⟩
    · rw [hE]
      unfold persistPhase
      simp only [hc, hsr, hcl, Bool.false_eq_true, if_false]
      exact ⟨_, _, _, rfl⟩
  · intro hn
    unfold rreview
    simp [hn]

/-- Witness for amended C5: with the rating globals stored, even a
failing verification select (`selectRes` raising) still yields a normal
return; before any rating POST (`initGState`), the same request crashes
with the state unchanged. -/
theorem rreview_exception_escape_boundary_witness :
    (∃ r gs' db',
      rreview { noFail with selectRes := true } 7 scenarioForm scenarioGS scenarioDB =
        Except.ok (r, gs', db')) ∧
    rreview noFail 7 scenarioForm initGState scenarioDB =
      Except.error (initGState, scenarioDB) :=
  ⟨(rreview_exception_escape_boundary _ 7 scenarioForm scenarioGS scenarioDB).1
      (by decide) rfl rfl rfl,
    (rreview_exception_escape_boundary noFail 7 scenarioForm initGState scenarioDB).2 rfl⟩

end Asst
